import Mathlib

/-!
Verification of the genshi `_speedups.c` escaping module
(`src/genshi/_speedups.c`) against its specification.

The module has two layers:
* `escape_unicode` (lines 51-111): a two-pass scan-and-substitute routine
  over sequences of Unicode code points;
* `escape` (lines 114-161): the dispatcher that classifies the input value
  and routes it (already-safe Markup values, numeric/bool/None
  short-circuit, `__html__` delegation, default text escaping).

The embedding below models Python unicode strings as lists of code points
(`List Nat`), the C `NULL`-with-exception-set convention as explicit error
values, and `Py_DECREF(NULL)` (reachable on allocation failure) as a
distinguished `crash` outcome.
-/

/-- A Python unicode string, as the sequence of its code points. -/
abbrev PyStr := List Nat

/-- Code points of a Lean string literal (used to write replacement texts). -/
def strCodes (s : String) : PyStr := s.data.map Char.toNat

/-- `#define ESCAPED_CHARS_TABLE_SIZE 63` (line 16). -/
def ESCAPED_CHARS_TABLE_SIZE : Nat := 63

/-- The `escaped_chars_delta_len` table as filled by `init_constants`
(lines 36-39): `memset` to zero, then 4 for `"` (34), single quote (39)
and `&` (38), and 3 for `<` (60) and `>` (62).  The `Fin` domain records
that the C array has exactly `ESCAPED_CHARS_TABLE_SIZE` entries, so every
access needs the bounds proof the C code establishes by its `<` guard. -/
def escaped_chars_delta_len (i : Fin ESCAPED_CHARS_TABLE_SIZE) : Nat :=
  if i.val = 34 ∨ i.val = 39 ∨ i.val = 38 then 4
  else if i.val = 60 ∨ i.val = 62 then 3
  else 0

/-- The `escaped_chars_repl` table as filled by `init_constants`
(lines 29-33).  Entries other than the five special characters are never
written in C (static `NULL` pointers) and never read, because every read
is guarded by a non-zero `escaped_chars_delta_len` entry; they are `[]`
here. -/
def escaped_chars_repl (i : Fin ESCAPED_CHARS_TABLE_SIZE) : PyStr :=
  if i.val = 34 then strCodes "&#34;"
  else if i.val = 39 then strCodes "&#39;"
  else if i.val = 38 then strCodes "&amp;"
  else if i.val = 60 then strCodes "&lt;"
  else if i.val = 62 then strCodes "&gt;"
  else []

/-- The measure pass of `escape_unicode` (lines 59-68): scan every code
point; for each one below the table bound that is not an excluded quote
character, accumulate `delta += escaped_chars_delta_len[*inp]` and
`erepl += !!escaped_chars_delta_len[*inp]`.  Returns `(delta, erepl)`. -/
def measure_pass (quotes : Bool) : PyStr → Nat × Nat
  | [] => (0, 0)
  | c :: rest =>
    let r := measure_pass quotes rest
    if h : c < ESCAPED_CHARS_TABLE_SIZE then
      if quotes || (c != 34 && c != 39) then
        (r.1 + escaped_chars_delta_len ⟨c, h⟩,
         r.2 + (if escaped_chars_delta_len ⟨c, h⟩ != 0 then 1 else 0))
      else r
    else r

/-- The substitution condition used by both passes (lines 63 and 86-88):
the code point is below the table bound, it is not a quote character
excluded by `quotes == 0`, and its table entry has a non-zero delta. -/
def is_subst (quotes : Bool) (c : Nat) : Bool :=
  if h : c < ESCAPED_CHARS_TABLE_SIZE then
    (quotes || (c != 34 && c != 39)) && (escaped_chars_delta_len ⟨c, h⟩ != 0)
  else false

/-- The replacement text copied for a substituted code point (line 102):
`delta_len + 1` units starting at `escaped_chars_repl[*next_escp]`.
Only evaluated on code points satisfying `is_subst`. -/
def subst_text (c : Nat) : PyStr :=
  if h : c < ESCAPED_CHARS_TABLE_SIZE then
    (escaped_chars_repl ⟨c, h⟩).take (escaped_chars_delta_len ⟨c, h⟩ + 1)
  else []

/-- The inner scan of the copy pass (lines 84-93): advance `next_escp`
to the next substitutable code point.  Returns the run of untouched code
points before it and the rest of the input starting at it (empty second
component when the scan reaches `inp_end`). -/
def find_run (quotes : Bool) : PyStr → PyStr × PyStr
  | [] => ([], [])
  | c :: rest =>
    if is_subst quotes c then ([], c :: rest)
    else
      let r := find_run quotes rest
      (c :: r.1, r.2)

/-- The copy pass of `escape_unicode` (lines 82-108): `erepl` times, locate
the next substitutable code point, bulk-copy the unescaped run before it,
copy its replacement text, and continue after it; finally copy the
trailing unescaped run (lines 107-108), which is the `0` case here.  The
`(run, [])` case is unreachable when `erepl` equals the measured count. -/
def escape_pass (quotes : Bool) : Nat → PyStr → PyStr
  | 0, inp => inp
  | erepl + 1, inp =>
    match find_run quotes inp with
    | (run, []) => run
    | (run, c :: rest) => run ++ subst_text c ++ escape_pass quotes erepl rest

/-- Result of `escape_unicode`: either the input object itself, returned
with `Py_INCREF` and no allocation (lines 71-74), or a freshly allocated
buffer (lines 76-110). -/
inductive EscResult where
  | shared (s : PyStr)
  | fresh (s : PyStr)
deriving DecidableEq

/-- The code-point sequence held by an `EscResult`. -/
def EscResult.val : EscResult → PyStr
  | .shared s => s
  | .fresh s => s

/-- `escape_unicode(in, quotes)` (lines 51-111), with allocation
succeeding: measure, take the fast path when no substitution was counted,
otherwise run the copy pass into the fresh buffer. -/
def escape_unicode (inp : PyStr) (quotes : Bool) : EscResult :=
  if (measure_pass quotes inp).2 = 0 then .shared inp
  else .fresh (escape_pass quotes (measure_pass quotes inp).2 inp)

/-- `escape_unicode` with the allocation outcome explicit: when the copy
pass is needed, `PyUnicode_FromUnicode` (line 76) may fail, in which case
the function returns `NULL` (`none`) with a pending error (lines 77-78).
The fast path performs no allocation and cannot fail this way. -/
def escape_unicode_alloc (inp : PyStr) (quotes : Bool) (allocOk : Bool) :
    Option EscResult :=
  if (measure_pass quotes inp).2 = 0 then some (.shared inp)
  else if allocOk then
    some (.fresh (escape_pass quotes (measure_pass quotes inp).2 inp))
  else none

/-!
## The dispatcher `escape` (lines 114-161)

Python values are modelled by the classification the dispatcher reads off
them.  The collaborators the C code calls into (CPython type predicates,
attribute lookup, `str()` conversion) are represented by the outcome they
produce on each value.
-/

/-- A Python exception (the error pending when a CPython call returns
`NULL`).  `otherError` gives infinitely many distinct errors, so theorems
can state that a specific error reaches the caller unchanged. -/
inductive PyErr where
  | attributeError
  | memoryError
  | otherError (code : Nat)
deriving DecidableEq

/-- The class of a generic object, recorded only so that theorems can
speak about strict subclasses of `int` and `float`: the dispatcher itself
never branches on it, because `PyLong_CheckExact` and `PyFloat_CheckExact`
(line 132-133) are exact-type checks that fail on every subclass. -/
inductive ClsKind where
  | plain
  | intSub
  | floatSub
deriving DecidableEq

/-- A Python value, classified the way the dispatcher observes it:
* `markup s`: an instance of `genshi.core.Markup` (`PyObject_TypeCheck`
  on line 126 accepts it) holding code points `s`;
* `intExact n`: type exactly `int` (`PyLong_CheckExact`, line 132);
* `floatExact r`: type exactly `float` (`PyFloat_CheckExact`, line 133);
  floats are carried by their `str()` text `r`, the only thing the
  dispatcher ever does with them;
* `boolV b`: a `bool` (`PyBool_Check`, line 133);
* `noneV`: the `None` singleton (line 134);
* `strV s`: a plain unicode string (no `__html__` attribute, so the probe
  on line 138 fails with `AttributeError`; `PyUnicode_Check` on line 147
  succeeds);
* `obj cls probe strRes`: any other object.  `probe` is the outcome of
  `PyObject_GetAttrString(text, "__html__")` (line 138): `Sum.inl e` means
  the lookup itself failed with exception `e`; `Sum.inr (Sum.inl e)` means
  the attribute was found but calling it (line 140) failed with `e`;
  `Sum.inr (Sum.inr v)` means the call returned `v`.  `strRes` is the
  outcome of `PyObject_Str(text)` (line 148). -/
inductive PyVal where
  | markup (s : PyStr)
  | intExact (n : Int)
  | floatExact (r : PyStr)
  | boolV (b : Bool)
  | noneV
  | strV (s : PyStr)
  | obj (cls : ClsKind) (probe : Sum PyErr (Sum PyErr PyVal))
        (strRes : Sum PyErr PyStr)

/-- The default textual form of a value (what `str()` yields on the
scalar types the short-circuit covers, and the content itself for
strings).  Generic objects never reach the places this is used. -/
def defaultText : PyVal → PyStr
  | .markup s => s
  | .strV s => s
  | .intExact n => strCodes (toString n)
  | .floatExact r => r
  | .boolV b => strCodes (if b then "True" else "False")
  | .noneV => strCodes "None"
  | .obj _ _ _ => []

/-- Modelled from the spec: the `Markup` collaborator type lives in
`genshi.core` (imported on lines 42-45), outside this module.  The spec
describes it as "a safe-marked-value type constructible from a text
sequence"; being a `str` subclass, constructing it from a value wraps the
value's default textual form as safe-marked.  This models the calls
`PyObject_CallFunctionObjArgs(markup, x, NULL)` on lines 135 and 158. -/
def Markup_call (v : PyVal) : PyVal := .markup (defaultText v)

/-- Whether the value's type is a strict subclass of `int`.  In Python,
`bool` is a strict subclass of `int` (`PyBool_Type` has `PyLong_Type` as
its base), so `True` and `False` qualify, as do instances of user-defined
`int` subclasses. -/
def isStrictIntSubclass : PyVal → Bool
  | .boolV _ => true
  | .obj .intSub _ _ => true
  | _ => false

/-- Whether the value's type is a strict subclass of `float`. -/
def isStrictFloatSubclass : PyVal → Bool
  | .obj .floatSub _ _ => true
  | _ => false

/-- Outcome of a call to `escape`:
* `ok v`: the call returned value `v`;
* `err e`: the call returned `NULL` with exception `e` pending (the
  failure propagates to the caller);
* `crash`: undefined behavior was reached — on the allocation-failure
  path `escape_unicode` returns `NULL`, `escape` passes that `NULL` to
  `PyObject_CallFunctionObjArgs` (line 158, which reads it as an empty
  argument list) and then executes `Py_DECREF(NULL)` (line 159). -/
inductive Outcome where
  | ok (v : PyVal)
  | err (e : PyErr)
  | crash

/-- The tail of the default path (lines 151-160): run `escape_unicode`
on an already-unicode value, then wrap the result with the `Markup`
constructor.  The second component counts `escape_unicode` invocations.
When allocation fails, `s` is `NULL` and the code reaches
`Py_DECREF(NULL)`: undefined behavior, modelled as `crash`. -/
def escape_text_str (u : PyStr) (quotes allocOk : Bool) : Outcome × Nat :=
  match escape_unicode_alloc u quotes allocOk with
  | some r => (.ok (Markup_call (.strV r.val)), 1)
  | none => (.crash, 1)

/-- `escape(text, quotes)` (lines 114-161), with the allocation outcome of
the scalar escaper as an explicit parameter.  The second component of the
result counts how many times the scalar escaper `escape_unicode` ran.
Branches, in the order of the C code:
* line 126-129: Markup instances are returned unchanged;
* lines 131-135: exact `int`, exact `float`, `bool` and `None` are wrapped
  directly by the `Markup` constructor;
* lines 137-143: if the `__html__` probe succeeds, call the attribute and
  return its result as-is (a failing call propagates its error);
* line 146: a failed probe is cleared (`PyErr_Clear`) and the code falls
  through;
* lines 147-155: non-unicode values are converted by `PyObject_Str`
  (a failing conversion propagates its error), then the unicode text is
  escaped and wrapped. -/
def escape (text : PyVal) (quotes allocOk : Bool) : Outcome × Nat :=
  match text with
  | .markup s => (.ok (.markup s), 0)
  | .intExact n => (.ok (Markup_call (.intExact n)), 0)
  | .floatExact r => (.ok (Markup_call (.floatExact r)), 0)
  | .boolV b => (.ok (Markup_call (.boolV b)), 0)
  | .noneV => (.ok (Markup_call .noneV), 0)
  | .strV s => escape_text_str s quotes allocOk
  | .obj _ probe strRes =>
    match probe with
    | .inr (.inr rv) => (.ok rv, 0)
    | .inr (.inl e) => (.err e, 0)
    | .inl _ =>
      match strRes with
      | .inl e => (.err e, 0)
      | .inr u => escape_text_str u quotes allocOk

/-!
## Specification-side definitions

These follow the wording of the spec and of the claims, to be compared
with the code-side definitions above.
-/

/-- The delta lengths exactly as the spec states them: 4 for `"` (34),
single quote (39) and `&` (38); 3 for `<` (60) and `>` (62); 0 for every
other code point. -/
def spec_delta_len (c : Nat) : Nat :=
  if c = 34 ∨ c = 39 ∨ c = 38 then 4
  else if c = 60 ∨ c = 62 then 3
  else 0

/-- Sum of the spec delta lengths over a text. -/
def spec_delta_sum : PyStr → Nat
  | [] => 0
  | c :: t => spec_delta_len c + spec_delta_sum t

/-- The per-code-point translation realised by `escape_unicode`: a
substitutable code point becomes its replacement text, every other code
point is copied through. -/
def escTr (quotes : Bool) (c : Nat) : PyStr :=
  if is_subst quotes c then subst_text c else [c]

/-- `escTr` applied across a whole text. -/
def escTr_all (quotes : Bool) : PyStr → PyStr
  | [] => []
  | c :: t => escTr quotes c ++ escTr_all quotes t

/-- The quote-toggle behaviour as the claim states it: with
`quotes = false` the two quote characters are copied through unaltered,
and every other code point is treated exactly as with `quotes = true`. -/
def spec_quote_toggle : PyStr → PyStr
  | [] => []
  | c :: t =>
    (if c = 34 ∨ c = 39 then [c] else escTr true c) ++ spec_quote_toggle t

/-- Concrete input of the scenario claim: the code points of
`<b>"hi" & {single quote}bye{single quote}</b>`. -/
def scenario_input : PyStr :=
  [60, 98, 62, 34, 104, 105, 34, 32, 38, 32, 39, 98, 121, 101, 39, 60, 47, 98, 62]

/-!
## Helper lemmas
-/

theorem measure_pass_snd_cons (q : Bool) (c : Nat) (t : PyStr) :
    (measure_pass q (c :: t)).2 =
      (measure_pass q t).2 + (if is_subst q c then 1 else 0) := by
  simp only [measure_pass, is_subst]
  by_cases h : c < ESCAPED_CHARS_TABLE_SIZE
  · simp only [dif_pos h]
    by_cases g : (q || (c != 34 && c != 39)) = true
    · simp only [g, Bool.true_and, if_true]
    · simp [g]
  · simp [h]

theorem find_run_cons_not (q : Bool) (c : Nat) (t : PyStr)
    (h : is_subst q c = false) :
    find_run q (c :: t) = (c :: (find_run q t).1, (find_run q t).2) := by
  simp only [find_run, h]
  rfl

theorem find_run_cons_yes (q : Bool) (c : Nat) (t : PyStr)
    (h : is_subst q c = true) :
    find_run q (c :: t) = ([], c :: t) := by
  simp only [find_run, h]
  rfl

theorem escape_pass_cons_not (q : Bool) (c : Nat) (t : PyStr) (n : Nat)
    (h : is_subst q c = false) :
    escape_pass q n (c :: t) = c :: escape_pass q n t := by
  cases n with
  | zero => rfl
  | succ k =>
    have hf := find_run_cons_not q c t h
    cases hfr : find_run q t with
    | mk run rest =>
      rw [hfr] at hf
      cases rest with
      | nil => simp only [escape_pass, hf, hfr]
      | cons d ds => simp only [escape_pass, hf, hfr, List.cons_append]

theorem escape_pass_cons_yes (q : Bool) (c : Nat) (t : PyStr) (k : Nat)
    (h : is_subst q c = true) :
    escape_pass q (k + 1) (c :: t) = subst_text c ++ escape_pass q k t := by
  simp only [escape_pass, find_run_cons_yes q c t h, List.nil_append]

theorem escape_pass_eq_escTr_all (q : Bool) (l : PyStr) :
    escape_pass q ((measure_pass q l).2) l = escTr_all q l := by
  induction l with
  | nil => rfl
  | cons c t ih =>
    rw [measure_pass_snd_cons]
    by_cases h : is_subst q c = true
    · rw [if_pos h, escape_pass_cons_yes q c t _ h, ih]
      show _ = escTr q c ++ escTr_all q t
      rw [escTr, if_pos h]
    · rw [if_neg h, Nat.add_zero,
          escape_pass_cons_not q c t _ (Bool.not_eq_true _ ▸ h), ih]
      show _ = escTr q c ++ escTr_all q t
      rw [escTr, if_neg h]
      rfl

theorem measure_zero_no_subst (q : Bool) (l : PyStr)
    (h : (measure_pass q l).2 = 0) : escTr_all q l = l := by
  induction l with
  | nil => rfl
  | cons c t ih =>
    rw [measure_pass_snd_cons] at h
    by_cases hc : is_subst q c = true
    · rw [if_pos hc] at h
      exact absurd h (by omega)
    · rw [if_neg hc, Nat.add_zero] at h
      show escTr q c ++ escTr_all q t = c :: t
      rw [escTr, if_neg hc, ih h]
      rfl

theorem escape_unicode_val (l : PyStr) (q : Bool) :
    (escape_unicode l q).val = escTr_all q l := by
  unfold escape_unicode
  by_cases h : (measure_pass q l).2 = 0
  · rw [if_pos h, measure_zero_no_subst q l h]
    rfl
  · rw [if_neg h]
    show escape_pass q ((measure_pass q l).2) l = escTr_all q l
    exact escape_pass_eq_escTr_all q l

theorem escTr_length_true (c : Nat) :
    (escTr true c).length = 1 + spec_delta_len c := by
  by_cases h : c < ESCAPED_CHARS_TABLE_SIZE
  · have h63 : c < 63 := h
    interval_cases c <;> decide
  · have h63 : ¬ c < 63 := h
    rw [escTr, is_subst, dif_neg h, if_neg (by simp),
        spec_delta_len, if_neg (by omega), if_neg (by omega)]
    rfl

theorem escTr_false_eq (c : Nat) :
    escTr false c = if c = 34 ∨ c = 39 then [c] else escTr true c := by
  by_cases h : c < ESCAPED_CHARS_TABLE_SIZE
  · have h63 : c < 63 := h
    interval_cases c <;> decide
  · have h63 : ¬ c < 63 := h
    rw [if_neg (by omega)]
    simp [escTr, is_subst, h]

theorem escTr_ge_table (q : Bool) (c : Nat)
    (h : ESCAPED_CHARS_TABLE_SIZE ≤ c) : escTr q c = [c] := by
  have h2 : ¬ c < ESCAPED_CHARS_TABLE_SIZE := by omega
  simp [escTr, is_subst, h2]

theorem escTr_all_length_true (l : PyStr) :
    (escTr_all true l).length = l.length + spec_delta_sum l := by
  induction l with
  | nil => rfl
  | cons c t ih =>
    show (escTr true c ++ escTr_all true t).length = _
    rw [List.length_append, escTr_length_true, ih, List.length_cons,
        spec_delta_sum]
    omega

theorem escTr_all_false_eq (l : PyStr) :
    escTr_all false l = spec_quote_toggle l := by
  induction l with
  | nil => rfl
  | cons c t ih =>
    show escTr false c ++ escTr_all false t = _
    rw [escTr_false_eq, ih]
    rfl

theorem escape_unicode_alloc_true (inp : PyStr) (q : Bool) :
    escape_unicode_alloc inp q true = some (escape_unicode inp q) := by
  unfold escape_unicode_alloc escape_unicode
  by_cases h : (measure_pass q inp).2 = 0 <;> simp [h]

/-!
## Claim theorems
-/

/-- Claim C1: for every value that is already safe-marked (an instance of
the Markup type), `escape` returns it unchanged — the identical value, no
re-wrap, no re-escape, and zero scalar-escaper invocations. -/
theorem escape_markup_identity (s : PyStr) (q a : Bool) :
    escape (.markup s) q a = (.ok (.markup s), 0) := rfl

/-- Claim C2: for every text `t`, the length of `escape_unicode t true` is
the length of `t` plus the sum over its code points of the delta lengths
(4 for `"`, single quote and `&`; 3 for `<` and `>`; 0 otherwise). -/
theorem escape_unicode_delta_length (t : PyStr) :
    ((escape_unicode t true).val).length = t.length + spec_delta_sum t := by
  rw [escape_unicode_val, escTr_all_length_true]

/-- Claim C3: for every text `t`, `escape_unicode t false` copies every
`"` (34) and single quote (39) through unaltered while treating every
other code point — in particular `&`, `<`, `>` — exactly as
`escape_unicode t true` does. -/
theorem escape_unicode_quote_toggle (t : PyStr) :
    (escape_unicode t false).val = spec_quote_toggle t := by
  rw [escape_unicode_val, escTr_all_false_eq]

/-- Claim C4: whenever the measure pass counts zero substitutions,
`escape_unicode` returns the original input sequence itself through the
sharing fast path (no allocation, no copy). -/
theorem escape_unicode_fast_path (t : PyStr) (q : Bool)
    (h : (measure_pass q t).2 = 0) :
    escape_unicode t q = .shared t := by
  unfold escape_unicode
  rw [if_pos h]

/-- Witness for claim C4, at the concrete inputs `"plain text"` and the
empty sequence. -/
theorem escape_unicode_fast_path_witness :
    escape_unicode (strCodes "plain text") true = .shared (strCodes "plain text")
    ∧ escape_unicode [] true = .shared [] :=
  ⟨escape_unicode_fast_path (strCodes "plain text") true (by decide),
   escape_unicode_fast_path [] true rfl⟩

/-- Claim C5: on the concrete input `<b>"hi" & {quote}bye{quote}</b>`
with `quotes = true`, the escaper produces exactly
`&lt;b&gt;&#34;hi&#34; &amp; &#39;bye&#39;&lt;/b&gt;` in a fresh buffer. -/
theorem escape_unicode_scenario :
    escape_unicode scenario_input true =
      .fresh (strCodes "&lt;b&gt;&#34;hi&#34; &amp; &#39;bye&#39;&lt;/b&gt;") := by
  decide

/-- Claim C6: exact `int`, exact `float`, `bool` and `None` are wrapped
directly as safe-marked values around their default textual form, with
zero scalar-escaper invocations (the count component is `0`). -/
theorem escape_numeric_shortcircuit (n : Int) (r : PyStr) (b : Bool)
    (q a : Bool) :
    escape (.intExact n) q a = (.ok (.markup (defaultText (.intExact n))), 0)
    ∧ escape (.floatExact r) q a = (.ok (.markup (defaultText (.floatExact r))), 0)
    ∧ escape (.boolV b) q a = (.ok (.markup (defaultText (.boolV b))), 0)
    ∧ escape .noneV q a = (.ok (.markup (defaultText .noneV)), 0) :=
  ⟨rfl, rfl, rfl, rfl⟩

/-- Claim C7: a code point at or above `ESCAPED_CHARS_TABLE_SIZE` is never
substituted — its per-code-point translation is itself — and the whole
escaper output is the concatenation of those per-code-point translations
(the table itself is only accessible at indices below the bound, its
domain being `Fin ESCAPED_CHARS_TABLE_SIZE`). -/
theorem escape_unicode_table_bound (t : PyStr) (q : Bool) (c : Nat)
    (hc : ESCAPED_CHARS_TABLE_SIZE ≤ c) :
    escTr q c = [c] ∧ (escape_unicode t q).val = escTr_all q t :=
  ⟨escTr_ge_table q c hc, escape_unicode_val t q⟩

/-- Witness for claim C7, at the table bound itself (code point 63)
inside a text that also holds a substitutable `&`. -/
theorem escape_unicode_table_bound_witness :
    escTr true 63 = [63]
    ∧ (escape_unicode [63, 38] true).val = escTr_all true [63, 38] :=
  escape_unicode_table_bound [63, 38] true 63 (by decide)

/-- Claim C8 (code bug): conversion failures and failures of the
`__html__` call do propagate unchanged (second and third conjuncts), but
when output-buffer allocation fails while escaping is needed, `escape`
reaches `Py_DECREF(NULL)` — undefined behavior, modelled `crash` —
instead of propagating the allocation error (first conjunct). -/
theorem escape_alloc_failure_crash :
    escape (.strV [60]) true false = (.crash, 1)
    ∧ escape (.obj .plain (.inl .attributeError) (.inl (.otherError 7)))
        true true = (.err (.otherError 7), 0)
    ∧ escape (.obj .plain (.inr (.inl (.otherError 9))) (.inr []))
        true true = (.err (.otherError 9), 0) :=
  ⟨rfl, rfl, rfl⟩

/-- Claim C9: any failure of the `__html__` attribute probe — whatever
the exception — is suppressed: the call behaves exactly as if the
attribute were simply absent, falling through to the
text-conversion-and-escape path. -/
theorem escape_html_probe_suppressed (cls : ClsKind) (e : PyErr)
    (strRes : Sum PyErr PyStr) (u : PyStr) (q a : Bool) :
    escape (.obj cls (.inl e) strRes) q a
      = escape (.obj cls (.inl PyErr.attributeError) strRes) q a
    ∧ escape (.obj cls (.inl e) (.inr u)) q a = escape_text_str u q a :=
  ⟨rfl, rfl⟩

/-- Counterexample to claim C10 as stated: `True` has type `bool`, a
strict subclass of `int` in Python, yet it takes the direct-wrap path
with zero scalar-escaper invocations (first half); likewise an `int`
subclass exposing `__html__` takes the delegation path, not the
text-escape path (second half). -/
theorem escape_bool_subclass_counterexample :
    (isStrictIntSubclass (.boolV true) = true
      ∧ escape (.boolV true) true true = (.ok (.markup (strCodes "True")), 0))
    ∧ (isStrictIntSubclass
          (.obj .intSub (.inr (.inr (.markup [104]))) (.inr [53])) = true
      ∧ escape (.obj .intSub (.inr (.inr (.markup [104]))) (.inr [53]))
          true true = (.ok (.markup [104]), 0)) :=
  ⟨⟨rfl, rfl⟩, ⟨rfl, rfl⟩⟩

/-- Claim C10 as amended: a value whose type is a strict subclass of
`int` other than `bool`, or a strict subclass of `float` — or indeed any
object failing the exact-type checks — whose `__html__` probe fails and
whose text conversion succeeds, is converted to text, run through the
scalar escaper exactly once, and wrapped as safe-marked. -/
theorem escape_strict_subclass_text_path (cls : ClsKind) (e : PyErr)
    (u : PyStr) (q : Bool) :
    escape (.obj cls (.inl e) (.inr u)) q true
      = (.ok (.markup (escape_unicode u q).val), 1) := by
  show escape_text_str u q true = _
  unfold escape_text_str
  rw [escape_unicode_alloc_true]
  rfl
